import Mathlib

set_option maxHeartbeats 1000000

/-!
Verification development for the `PointWFI` pointing/dither helper of this
repository (the `@dataclass`-based class defined in the "Dithered
Observations" section of the simulation notebook).

The class delegates all coordinate-frame mathematics to the external
`pysiaf` library through four entry points (the `AttitudeFrame`
collaborator of the specification, section 6):
  `pysiaf.utils.rotations.attitude`, the aperture's `idl_to_sky`
  (= `tel_to_sky` after the aperture's ideal-to-telescope transform),
  `tel_to_sky` itself, and `pysiaf.utils.rotations.posangle`.

The state-management logic of the class itself is polymorphic in the scalar
type (Python is untyped), so we embed it over an arbitrary scalar `α` and an
arbitrary collaborator record `AttitudeFrame α`.  Properties of the actual
spherical-geometry computation are settled against a concrete real-number
model of the external `pysiaf` collaborator, defined further below.
-/

/-- The external attitude/frame-transform collaborator (specification
section 6), as consumed by the source class: `v2Ref`/`v3Ref` are the
aperture's reference-point constants read in `__post_init__`
(`self.siaf_aperture.V2Ref`, `.V3Ref`); `attitude` is
`pysiaf.utils.rotations.attitude`; `pointing m v2 v3` is the aperture's
`tel_to_sky` evaluated under the attitude matrix `m` (arguments in
arcseconds); `posangle` is `pysiaf.utils.rotations.posangle`; and
`idlToTel` is the aperture's ideal-to-telescope transform, so that the
aperture's `idl_to_sky x y` is `pointing m (idlToTel x y).1 (idlToTel x y).2`. -/
structure AttitudeFrame (α : Type) where
  v2Ref : α
  v3Ref : α
  attitude : α → α → α → α → α → Matrix (Fin 3) (Fin 3) α
  pointing : Matrix (Fin 3) (Fin 3) α → α → α → α × α
  posangle : Matrix (Fin 3) (Fin 3) α → α → α → α
  idlToTel : α → α → α × α

/-- The mutable state of a `PointWFI` instance: the three constructor
fields (`ra`, `dec`, `roll_angle`), the fields set in `__post_init__`
(`v2_ref`, `v3_ref`, `attitude_matrix`), the attitude matrix held by
`self.siaf_aperture` (set via `set_attitude_matrix`, used by `idl_to_sky`
and `tel_to_sky`), and the boresight fields set in
`_update_boresight_position` (`tel_ra`, `tel_dec`, `tel_roll`). -/
structure PointWFI (α : Type) where
  ra : α
  dec : α
  roll_angle : α
  v2_ref : α
  v3_ref : α
  aperture_attitude : Matrix (Fin 3) (Fin 3) α
  attitude_matrix : Matrix (Fin 3) (Fin 3) α
  tel_ra : α
  tel_dec : α
  tel_roll : α

/-- Translation of `PointWFI._update_boresight_position`: reads the
telescope boresight position `tel_to_sky(0, 0)` under the aperture's
current attitude matrix, stores it in `tel_ra`/`tel_dec`, overwrites
`self.attitude_matrix` with `rotations.attitude(0, 0, tel_ra, tel_dec,
roll_angle)`, and stores `tel_roll = rotations.posangle(attitude_matrix,
0, 0)`.  It does not touch the aperture's own attitude matrix. -/
def updateBoresight {α : Type} [Zero α] (F : AttitudeFrame α) (s : PointWFI α) : PointWFI α :=
  let bs := F.pointing s.aperture_attitude 0 0
  let m := F.attitude 0 0 bs.1 bs.2 s.roll_angle
  { s with
    tel_ra := bs.1
    tel_dec := bs.2
    attitude_matrix := m
    tel_roll := F.posangle m 0 0 }

/-- Translation of constructing a `PointWFI` (dataclass `__init__` storing
`ra`, `dec`, `roll_angle`, followed by `__post_init__`): reads
`v2_ref`/`v3_ref` from the aperture, computes `attitude_matrix =
rotations.attitude(v2_ref, v3_ref, ra, dec, roll_angle)`, installs it on
the aperture with `set_attitude_matrix`, then calls
`_update_boresight_position`.  There is no input validation anywhere in
the source. -/
def construct {α : Type} [Zero α] (F : AttitudeFrame α) (ra dec roll_angle : α) : PointWFI α :=
  let m := F.attitude F.v2Ref F.v3Ref ra dec roll_angle
  updateBoresight F
    { ra := ra
      dec := dec
      roll_angle := roll_angle
      v2_ref := F.v2Ref
      v3_ref := F.v3Ref
      aperture_attitude := m
      attitude_matrix := m
      tel_ra := 0
      tel_dec := 0
      tel_roll := 0 }

/-- Translation of `PointWFI.dither(x_offset, y_offset)`:
`new_ra, new_dec = self.siaf_aperture.idl_to_sky(x_offset, y_offset)`
(evaluated under the aperture's current attitude matrix), then
`self.attitude_matrix = rotations.attitude(v2_ref, v3_ref, new_ra,
new_dec, roll_angle)`, `set_attitude_matrix` on the aperture, then
`_update_boresight_position()`, and finally `self.ra, self.dec = new_ra,
new_dec`.  There is no validation of the offsets and no error path. -/
def dither {α : Type} [Zero α] (F : AttitudeFrame α) (s : PointWFI α)
    (x_offset y_offset : α) : PointWFI α :=
  let tel := F.idlToTel x_offset y_offset
  let new := F.pointing s.aperture_attitude tel.1 tel.2
  let m := F.attitude s.v2_ref s.v3_ref new.1 new.2 s.roll_angle
  let s2 := updateBoresight F { s with attitude_matrix := m, aperture_attitude := m }
  { s2 with ra := new.1, dec := new.2 }

/-- Translation of the `CurrentPosition` accessor of the specification:
reading back `point.ra, point.dec` as in the source docstring. -/
def currentPosition {α : Type} (s : PointWFI α) : α × α := (s.ra, s.dec)

/-- The sky position a single `dither` call computes from a state `s`
(step (a) of the dither algorithm): the aperture's `idl_to_sky` of the
offsets under the aperture's currently installed attitude matrix. -/
def ditherSky {α : Type} (F : AttitudeFrame α) (s : PointWFI α) (x y : α) : α × α :=
  F.pointing s.aperture_attitude (F.idlToTel x y).1 (F.idlToTel x y).2

/-- The specification's description of the position computed by one
`Dither` (section 4.1, follows the spec's words, for comparison with the
source translation `dither`): convert the offset through the aperture's
ideal-to-sky transform evaluated at the attitude built from
`(v2_ref, v3_ref, ra, dec, roll_angle)` at the current `ra`, `dec`. -/
def specDitherPosition {α : Type} (F : AttitudeFrame α)
    (v2 v3 ra dec roll x y : α) : α × α :=
  F.pointing (F.attitude v2 v3 ra dec roll) (F.idlToTel x y).1 (F.idlToTel x y).2

/-- Translation of the dataclass field defaults
`ra: float = 80.0`, `dec: float = 30.0`, `roll_angle: float = 0.0`:
constructing with no arguments. -/
def constructDefault {α : Type} [Zero α] [OfNat α 80] [OfNat α 30]
    (F : AttitudeFrame α) : PointWFI α :=
  construct F 80 30 0

/-- Running a sequence of `dither` calls from a state, in order. -/
def runDithers {α : Type} [Zero α] (F : AttitudeFrame α) :
    PointWFI α → List (α × α) → PointWFI α
  | s, [] => s
  | s, o :: rest => runDithers F (dither F s o.1 o.2) rest

/-- A state reachable by `construct` followed by a sequence of `dither`
calls. -/
def reachState {α : Type} [Zero α] (F : AttitudeFrame α)
    (ra dec roll : α) (offs : List (α × α)) : PointWFI α :=
  runDithers F (construct F ra dec roll) offs

/-- The aperture's installed attitude matrix is the one anchored at the
state's current `(ra, dec)` through `(v2_ref, v3_ref, roll_angle)`. -/
def Anchored {α : Type} (F : AttitudeFrame α) (s : PointWFI α) : Prop :=
  s.aperture_attitude = F.attitude s.v2_ref s.v3_ref s.ra s.dec s.roll_angle

/-- Boresight-field consistency after an operation: `tel_ra`/`tel_dec`
are `tel_to_sky(0,0)` under the aperture's current attitude,
`attitude_matrix` is the boresight-anchored matrix built from them, and
`tel_roll` is the position angle of that matrix at `(0, 0)`. -/
def BoresightConsistent {α : Type} [Zero α] (F : AttitudeFrame α) (s : PointWFI α) : Prop :=
  (s.tel_ra, s.tel_dec) = F.pointing s.aperture_attitude 0 0 ∧
  s.attitude_matrix = F.attitude 0 0 s.tel_ra s.tel_dec s.roll_angle ∧
  s.tel_roll = F.posangle s.attitude_matrix 0 0

noncomputable section

/-- Degrees to radians, as numpy's `radians` used throughout `pysiaf`. -/
def deg2rad (d : ℝ) : ℝ := d * (Real.pi / 180)

/-- Radians to degrees, as numpy's `degrees`. -/
def rad2deg (r : ℝ) : ℝ := r * (180 / Real.pi)

/-- Model of the external `pysiaf.utils.rotations.rotate(1, θ)` (rotation
about the x-axis, angle in degrees). -/
def rot1 (θ : ℝ) : Matrix (Fin 3) (Fin 3) ℝ :=
  Matrix.of ![![1, 0, 0],
              ![0, Real.cos (deg2rad θ), -Real.sin (deg2rad θ)],
              ![0, Real.sin (deg2rad θ), Real.cos (deg2rad θ)]]

/-- Model of the external `pysiaf.utils.rotations.rotate(2, θ)` (rotation
about the y-axis, angle in degrees). -/
def rot2 (θ : ℝ) : Matrix (Fin 3) (Fin 3) ℝ :=
  Matrix.of ![![Real.cos (deg2rad θ), 0, Real.sin (deg2rad θ)],
              ![0, 1, 0],
              ![-Real.sin (deg2rad θ), 0, Real.cos (deg2rad θ)]]

/-- Model of the external `pysiaf.utils.rotations.rotate(3, θ)` (rotation
about the z-axis, angle in degrees). -/
def rot3 (θ : ℝ) : Matrix (Fin 3) (Fin 3) ℝ :=
  Matrix.of ![![Real.cos (deg2rad θ), -Real.sin (deg2rad θ), 0],
              ![Real.sin (deg2rad θ), Real.cos (deg2rad θ), 0],
              ![0, 0, 1]]

/-- Model of the external `pysiaf.utils.rotations.unit(ra, dec)`: the unit
vector of a sky position given in degrees. -/
def unitVec (ra dec : ℝ) : Fin 3 → ℝ :=
  ![Real.cos (deg2rad ra) * Real.cos (deg2rad dec),
    Real.sin (deg2rad ra) * Real.cos (deg2rad dec),
    Real.sin (deg2rad dec)]

/-- Model of the external `pysiaf.utils.rotations.attitude(v2, v3, ra,
dec, pa)`: `v2`, `v3` in arcseconds, the rest in degrees; the composite
rotation `R3(ra) R2(-dec) R1(pa - 180) R2(v3/3600) R3(-v2/3600)`, which
carries the telescope-frame direction `(v2, v3)` to the sky position
`(ra, dec)` with position angle `pa` there. -/
def attitudeM (v2 v3 ra dec pa : ℝ) : Matrix (Fin 3) (Fin 3) ℝ :=
  rot3 ra * rot2 (-dec) * rot1 (-(180 - pa)) * rot2 (v3 / 3600) * rot3 (-(v2 / 3600))

/-- Two-argument arctangent with the quadrant conventions of numpy's
`arctan2` on reals (range `(-π, π]`, `atan2 0 0 = 0`), realized as the
complex argument of `x + y i`. -/
def atan2 (y x : ℝ) : ℝ := Complex.arg (x + y * Complex.I)

/-- Model of the external `pysiaf.utils.rotations.radec(u,
positive_ra=True)`: recover `(ra, dec)` in degrees from a unit vector,
with `ra` normalized into `[0, 360)`. -/
def radecOf (u : Fin 3 → ℝ) : ℝ × ℝ :=
  let raDeg := rad2deg (atan2 (u 1) (u 0))
  (if raDeg < 0 then raDeg + 360 else raDeg, rad2deg (Real.arcsin (u 2)))

/-- Model of the external `pysiaf.utils.rotations.pointing(m, v2, v3)`
(the aperture's `tel_to_sky` under attitude matrix `m`): `v2`, `v3` in
arcseconds. -/
def pointingM (m : Matrix (Fin 3) (Fin 3) ℝ) (v2 v3 : ℝ) : ℝ × ℝ :=
  radecOf (m.mulVec (unitVec (v2 / 3600) (v3 / 3600)))

/-- The aperture constants of the external SIAF data file consumed by the
source (`V2Ref`, `V3Ref`, `V3IdlYAngle`, `VIdlParity` of the Roman
`WFI_CEN` aperture).  Their numeric values live in external calibration
data, so the development is parametric in them. -/
structure SiafConsts where
  v2Ref : ℝ
  v3Ref : ℝ
  v3IdlYAngle : ℝ
  vIdlParity : ℝ

/-- Model of the external aperture ideal-to-telescope transform used by
`idl_to_sky` (the standard SIAF linear mapping): at the origin it returns
the aperture reference point `(V2Ref, V3Ref)` for every choice of
constants. -/
def idlToTelM (c : SiafConsts) (x y : ℝ) : ℝ × ℝ :=
  (c.v2Ref + c.vIdlParity * x * Real.cos (deg2rad c.v3IdlYAngle)
     + y * Real.sin (deg2rad c.v3IdlYAngle),
   c.v3Ref - c.vIdlParity * x * Real.sin (deg2rad c.v3IdlYAngle)
     + y * Real.cos (deg2rad c.v3IdlYAngle))

/-- The real-number model of the external `pysiaf` collaborator,
parametric in the SIAF aperture constants and in the `posangle`
diagnostic (`posangle` is consumed by the source only to fill the
`tel_roll` diagnostic field; no claim depends on its value, so it stays
an arbitrary parameter rather than being modelled). -/
def pysiafFrame (c : SiafConsts) (pa : Matrix (Fin 3) (Fin 3) ℝ → ℝ → ℝ → ℝ) :
    AttitudeFrame ℝ where
  v2Ref := c.v2Ref
  v3Ref := c.v3Ref
  attitude := attitudeM
  pointing := pointingM
  posangle := pa
  idlToTel := idlToTelM c

/-- A trivial stand-in for the `posangle` diagnostic parameter. -/
def posangleZero : Matrix (Fin 3) (Fin 3) ℝ → ℝ → ℝ → ℝ :=
  fun _ _ _ => 0

/-- A representative choice of aperture constants with the reference
point at the telescope boresight and a trivial ideal-frame rotation (the
actual Roman `WFI_CEN` numbers live in external data). -/
def zeroConsts : SiafConsts :=
  { v2Ref := 0, v3Ref := 0, v3IdlYAngle := 0, vIdlParity := 1 }

/-- Aperture constants whose reference point sits 90 degrees away from
the boresight along `V2`, used to separate the target-anchored attitude
matrix from the boresight-anchored one. -/
def sepConsts : SiafConsts :=
  { v2Ref := 324000, v3Ref := 0, v3IdlYAngle := 0, vIdlParity := 1 }

/-- The concrete collaborator instance with boresight-centred constants. -/
def frame0 : AttitudeFrame ℝ := pysiafFrame zeroConsts posangleZero

/-- The concrete collaborator instance with the offset reference point. -/
def frame90 : AttitudeFrame ℝ := pysiafFrame sepConsts posangleZero

end

/-- A small computable collaborator instance over `ℚ` (an arbitrary
deterministic `AttitudeFrame`, used to exercise the scalar-generic state
logic on concrete inputs; the state-management claims hold for every
collaborator, so any concrete instance serves as a witness). -/
def rationalFrame : AttitudeFrame ℚ where
  v2Ref := 7
  v3Ref := 9
  attitude := fun v2 v3 ra dec pa =>
    Matrix.of ![![v2, v3, ra], ![dec, pa, 0], ![0, 0, 1]]
  pointing := fun m v2 v3 => (m 0 2 + v2, m 1 0 + v3)
  posangle := fun m x y => m 1 1 + x + y
  idlToTel := fun x y => (7 + x, 9 + y)

/-- Modelled from the spec: a scalar carrying the IEEE-754 non-finite
value `NaN` alongside exact rationals.  The source stores Python floats;
the specification's failure-semantics sentence quantifies over non-finite
offsets, which exact real arithmetic cannot express, so this minimal
float model carries the one non-finite value the claim needs. -/
inductive FP where
  | num : ℚ → FP
  | nan : FP
deriving DecidableEq

instance : Zero FP := ⟨FP.num 0⟩

/-- IEEE-style addition on the minimal float model: any operation
touching `NaN` yields `NaN`, as numpy arithmetic does. -/
def FP.add : FP → FP → FP
  | FP.num a, FP.num b => FP.num (a + b)
  | _, _ => FP.nan

/-- Modelled from the spec: a NaN-propagating instance of the external
`AttitudeFrame` collaborator over the minimal float model, reflecting
that every numpy trigonometric and matrix operation maps NaN inputs to
NaN outputs (and raises no exception).  The transform values at finite
inputs are irrelevant to the failure-semantics claim. -/
def nanFrame : AttitudeFrame FP where
  v2Ref := FP.num 0
  v3Ref := FP.num 0
  attitude := fun _ _ ra dec _ => Matrix.of fun _ _ => FP.add ra dec
  pointing := fun _ v2 v3 => (v2, v3)
  posangle := fun _ _ _ => FP.num 0
  idlToTel := fun x y => (FP.add (FP.num 0) x, FP.add (FP.num 0) y)

theorem dither_ra_eq {α : Type} [Zero α] (F : AttitudeFrame α) (s : PointWFI α) (x y : α) :
    (dither F s x y).ra = (ditherSky F s x y).1 := rfl

theorem dither_dec_eq {α : Type} [Zero α] (F : AttitudeFrame α) (s : PointWFI α) (x y : α) :
    (dither F s x y).dec = (ditherSky F s x y).2 := rfl

theorem dither_roll_eq {α : Type} [Zero α] (F : AttitudeFrame α) (s : PointWFI α) (x y : α) :
    (dither F s x y).roll_angle = s.roll_angle := rfl

theorem dither_v2_eq {α : Type} [Zero α] (F : AttitudeFrame α) (s : PointWFI α) (x y : α) :
    (dither F s x y).v2_ref = s.v2_ref := rfl

theorem dither_v3_eq {α : Type} [Zero α] (F : AttitudeFrame α) (s : PointWFI α) (x y : α) :
    (dither F s x y).v3_ref = s.v3_ref := rfl

theorem dither_aperture_eq {α : Type} [Zero α] (F : AttitudeFrame α) (s : PointWFI α) (x y : α) :
    (dither F s x y).aperture_attitude =
      F.attitude s.v2_ref s.v3_ref (ditherSky F s x y).1 (ditherSky F s x y).2 s.roll_angle := rfl

theorem anchored_construct {α : Type} [Zero α] (F : AttitudeFrame α) (ra dec roll : α) :
    Anchored F (construct F ra dec roll) := rfl

theorem anchored_dither {α : Type} [Zero α] (F : AttitudeFrame α) (s : PointWFI α) (x y : α) :
    Anchored F (dither F s x y) := rfl

theorem boresight_construct {α : Type} [Zero α] (F : AttitudeFrame α) (ra dec roll : α) :
    BoresightConsistent F (construct F ra dec roll) := ⟨rfl, rfl, rfl⟩

theorem boresight_dither {α : Type} [Zero α] (F : AttitudeFrame α) (s : PointWFI α) (x y : α) :
    BoresightConsistent F (dither F s x y) := ⟨rfl, rfl, rfl⟩

theorem runDithers_roll {α : Type} [Zero α] (F : AttitudeFrame α) (offs : List (α × α)) :
    ∀ s : PointWFI α, (runDithers F s offs).roll_angle = s.roll_angle := by
  induction offs with
  | nil => intro s; rfl
  | cons o rest ih => intro s; rw [runDithers, ih, dither_roll_eq]

theorem runDithers_v2 {α : Type} [Zero α] (F : AttitudeFrame α) (offs : List (α × α)) :
    ∀ s : PointWFI α, (runDithers F s offs).v2_ref = s.v2_ref := by
  induction offs with
  | nil => intro s; rfl
  | cons o rest ih => intro s; rw [runDithers, ih, dither_v2_eq]

theorem runDithers_v3 {α : Type} [Zero α] (F : AttitudeFrame α) (offs : List (α × α)) :
    ∀ s : PointWFI α, (runDithers F s offs).v3_ref = s.v3_ref := by
  induction offs with
  | nil => intro s; rfl
  | cons o rest ih => intro s; rw [runDithers, ih, dither_v3_eq]

theorem runDithers_boresight {α : Type} [Zero α] (F : AttitudeFrame α) (offs : List (α × α)) :
    ∀ s : PointWFI α, BoresightConsistent F s → BoresightConsistent F (runDithers F s offs) := by
  induction offs with
  | nil => intro s h; exact h
  | cons o rest ih => intro s _; exact ih _ (boresight_dither F s o.1 o.2)

theorem runDithers_anchored {α : Type} [Zero α] (F : AttitudeFrame α) (offs : List (α × α)) :
    ∀ s : PointWFI α, Anchored F s → Anchored F (runDithers F s offs) := by
  induction offs with
  | nil => intro s h; exact h
  | cons o rest ih => intro s _; exact ih _ (anchored_dither F s o.1 o.2)

theorem runDithers_append {α : Type} [Zero α] (F : AttitudeFrame α) (l1 l2 : List (α × α)) :
    ∀ s : PointWFI α, runDithers F s (l1 ++ l2) = runDithers F (runDithers F s l1) l2 := by
  induction l1 with
  | nil => intro s; rfl
  | cons o rest ih => intro s; rw [List.cons_append, runDithers, runDithers, ih]

/-- Claim C2: one `Dither` call (a) converts the offset through the
aperture ideal-to-sky transform evaluated at the attitude anchored at the
current stored position, yielding the new position, (b) rebuilds the
aperture's attitude matrix from `(v2_ref, v3_ref, new_ra, new_dec,
roll_angle)`, and (c) updates the stored `ra`, `dec` to that position;
the anchoring is preserved, so successive dithers compose through
successive attitude matrices. -/
theorem claimC2_theorem {α : Type} [Zero α] (F : AttitudeFrame α) (s : PointWFI α)
    (x y : α) (h : Anchored F s) :
    currentPosition (dither F s x y) =
        specDitherPosition F s.v2_ref s.v3_ref s.ra s.dec s.roll_angle x y ∧
      (dither F s x y).aperture_attitude =
        F.attitude s.v2_ref s.v3_ref
          (specDitherPosition F s.v2_ref s.v3_ref s.ra s.dec s.roll_angle x y).1
          (specDitherPosition F s.v2_ref s.v3_ref s.ra s.dec s.roll_angle x y).2
          s.roll_angle ∧
      Anchored F (dither F s x y) := by
  have hsky : ditherSky F s x y =
      specDitherPosition F s.v2_ref s.v3_ref s.ra s.dec s.roll_angle x y := by
    rw [ditherSky, specDitherPosition, h]
  refine ⟨?_, ?_, anchored_dither F s x y⟩
  · show ditherSky F s x y = _
    exact hsky
  · rw [dither_aperture_eq, hsky]

/-- Witness for claim C2 at a concrete collaborator, state and offsets. -/
theorem claimC2_witness :
    Anchored rationalFrame (construct rationalFrame 1 2 3) ∧
      (currentPosition (dither rationalFrame (construct rationalFrame 1 2 3) 4 5) =
          specDitherPosition rationalFrame
            (construct rationalFrame 1 2 3).v2_ref
            (construct rationalFrame 1 2 3).v3_ref
            (construct rationalFrame 1 2 3).ra
            (construct rationalFrame 1 2 3).dec
            (construct rationalFrame 1 2 3).roll_angle 4 5 ∧
        (dither rationalFrame (construct rationalFrame 1 2 3) 4 5).aperture_attitude =
          rationalFrame.attitude
            (construct rationalFrame 1 2 3).v2_ref
            (construct rationalFrame 1 2 3).v3_ref
            (specDitherPosition rationalFrame
              (construct rationalFrame 1 2 3).v2_ref
              (construct rationalFrame 1 2 3).v3_ref
              (construct rationalFrame 1 2 3).ra
              (construct rationalFrame 1 2 3).dec
              (construct rationalFrame 1 2 3).roll_angle 4 5).1
            (specDitherPosition rationalFrame
              (construct rationalFrame 1 2 3).v2_ref
              (construct rationalFrame 1 2 3).v3_ref
              (construct rationalFrame 1 2 3).ra
              (construct rationalFrame 1 2 3).dec
              (construct rationalFrame 1 2 3).roll_angle 4 5).2
            (construct rationalFrame 1 2 3).roll_angle ∧
        Anchored rationalFrame (dither rationalFrame (construct rationalFrame 1 2 3) 4 5)) :=
  ⟨anchored_construct rationalFrame 1 2 3,
    claimC2_theorem rationalFrame (construct rationalFrame 1 2 3) 4 5
      (anchored_construct rationalFrame 1 2 3)⟩

/-- Claim C3 (counterexample): constructing with `dec = 95.0` does not
fail — the source performs no range validation, so a fully-formed state
is created carrying `ra = 80`, `dec = 95`, `roll_angle = 0`. -/
theorem claimC3_counterexample :
    (construct frame0 80 95 0).ra = 80 ∧
      (construct frame0 80 95 0).dec = 95 ∧
      (construct frame0 80 95 0).roll_angle = 0 :=
  ⟨rfl, rfl, rfl⟩

/-- Claim C3 (amended): `Construct` performs no validation at all; for
every input — `dec` in range or not — it succeeds and creates a state
storing exactly the given `ra`, `dec` and `roll_angle`; no
`InvalidArgument` failure exists in the code. -/
theorem claimC3_theorem {α : Type} [Zero α] (F : AttitudeFrame α) (ra dec roll : α) :
    (construct F ra dec roll).ra = ra ∧
      (construct F ra dec roll).dec = dec ∧
      (construct F ra dec roll).roll_angle = roll :=
  ⟨rfl, rfl, rfl⟩

/-- Claim C4 (counterexample): a dither with a NaN offset neither fails
nor leaves the state unchanged — the source has no finiteness check, so
the NaN propagates through the external transform and is committed into
the stored `ra`. -/
theorem claimC4_counterexample :
    (dither nanFrame (construct nanFrame (FP.num 80) (FP.num 30) (FP.num 0))
        FP.nan (FP.num 0)).ra = FP.nan ∧
      (construct nanFrame (FP.num 80) (FP.num 30) (FP.num 0)).ra = FP.num 80 ∧
      FP.nan ≠ FP.num 80 :=
  ⟨rfl, rfl, by decide⟩

/-- Claim C4 (amended): `dither` performs no validation of its offsets
and has no error path: for every state and every offset pair (finite or
not) it unconditionally commits the transformed position into the stored
`ra`/`dec` and rebuilds the matrices. -/
theorem claimC4_theorem {α : Type} [Zero α] (F : AttitudeFrame α) (s : PointWFI α) (x y : α) :
    currentPosition (dither F s x y) = ditherSky F s x y ∧
      (dither F s x y).aperture_attitude =
        F.attitude s.v2_ref s.v3_ref (ditherSky F s x y).1 (ditherSky F s x y).2
          s.roll_angle :=
  ⟨rfl, rfl⟩

/-- Claim C5: `Construct` followed immediately by `CurrentPosition`
returns exactly the `(ra, dec)` passed to `Construct`; after any dither
sequence ending in a `Dither`, `CurrentPosition` returns exactly the
position produced by that latest dither. -/
theorem claimC5_theorem {α : Type} [Zero α] (F : AttitudeFrame α) (ra dec roll : α) :
    currentPosition (construct F ra dec roll) = (ra, dec) ∧
      ∀ (offs : List (α × α)) (x y : α),
        currentPosition (runDithers F (construct F ra dec roll) (offs ++ [(x, y)])) =
          ditherSky F (runDithers F (construct F ra dec roll) offs) x y := by
  refine ⟨rfl, fun offs x y => ?_⟩
  rw [runDithers_append]
  rfl

/-- Claim C8: `roll_angle`, `v2_ref` and `v3_ref` are never modified
after construction — in every state reachable by `construct` followed by
any sequence of `dither` calls they equal their construction values. -/
theorem claimC8_theorem {α : Type} [Zero α] (F : AttitudeFrame α)
    (ra dec roll : α) (offs : List (α × α)) :
    (reachState F ra dec roll offs).roll_angle = roll ∧
      (reachState F ra dec roll offs).v2_ref = F.v2Ref ∧
      (reachState F ra dec roll offs).v3_ref = F.v3Ref := by
  refine ⟨?_, ?_, ?_⟩
  · rw [reachState, runDithers_roll]; rfl
  · rw [reachState, runDithers_v2]; rfl
  · rw [reachState, runDithers_v3]; rfl

/-- Claim C9: every operation (construction and every dither) maintains
the derived boresight fields: afterwards `(tel_ra, tel_dec)` is the
telescope-to-sky transform of `(0, 0)` under the aperture's current
attitude, `attitude_matrix` is the boresight-anchored matrix rebuilt from
`(0, 0, tel_ra, tel_dec, roll_angle)`, and `tel_roll` is the position
angle recovered from that matrix at `(0, 0)`. -/
theorem claimC9_theorem {α : Type} [Zero α] (F : AttitudeFrame α)
    (ra dec roll : α) (offs : List (α × α)) :
    BoresightConsistent F (reachState F ra dec roll offs) :=
  runDithers_boresight F offs (construct F ra dec roll) (boresight_construct F ra dec roll)

/-- Claim C10: constructing with no arguments uses the dataclass defaults
`ra = 80.0`, `dec = 30.0`, `roll_angle = 0.0`, and `CurrentPosition`
immediately afterwards returns `(80, 30)`. -/
theorem claimC10_theorem {α : Type} [Zero α] [OfNat α 80] [OfNat α 30]
    (F : AttitudeFrame α) :
    constructDefault F = construct F 80 30 0 ∧
      currentPosition (constructDefault F) = (80, 30) :=
  ⟨rfl, rfl⟩

/-- Claim C1 (amended): after `construct` and after every `dither`, the
stored `attitude_matrix` field is the boresight-anchored matrix
`attitude(0, 0, tel_ra, tel_dec, roll_angle)` at the current boresight —
recomputed synchronously inside every operation, never stale — while the
matrix anchored at the current target, `attitude(v2_ref, v3_ref, ra, dec,
roll_angle)`, is the one installed on the aperture (not the one stored in
the `attitude_matrix` field). -/
theorem claimC1_theorem {α : Type} [Zero α] (F : AttitudeFrame α)
    (ra dec roll : α) (offs : List (α × α)) :
    (reachState F ra dec roll offs).attitude_matrix =
        F.attitude 0 0 (reachState F ra dec roll offs).tel_ra
          (reachState F ra dec roll offs).tel_dec
          (reachState F ra dec roll offs).roll_angle ∧
      Anchored F (reachState F ra dec roll offs) :=
  ⟨(runDithers_boresight F offs (construct F ra dec roll)
      (boresight_construct F ra dec roll)).2.1,
    runDithers_anchored F offs (construct F ra dec roll)
      (anchored_construct F ra dec roll)⟩

theorem deg2rad_zero : deg2rad 0 = 0 := by
  unfold deg2rad; ring

theorem deg2rad_neg (x : ℝ) : deg2rad (-x) = -deg2rad x := by
  unfold deg2rad; ring

theorem deg2rad_add (x y : ℝ) : deg2rad (x + y) = deg2rad x + deg2rad y := by
  unfold deg2rad; ring

theorem deg2rad_sub (x y : ℝ) : deg2rad (x - y) = deg2rad x - deg2rad y := by
  unfold deg2rad; ring

theorem deg2rad_90 : deg2rad 90 = Real.pi / 2 := by
  unfold deg2rad; ring

theorem deg2rad_180 : deg2rad 180 = Real.pi := by
  unfold deg2rad; ring

theorem rad2deg_deg2rad (x : ℝ) : rad2deg (deg2rad x) = x := by
  unfold rad2deg deg2rad
  field_simp

theorem cosd_zero : Real.cos (deg2rad 0) = 1 := by
  rw [deg2rad_zero, Real.cos_zero]

theorem sind_zero : Real.sin (deg2rad 0) = 0 := by
  rw [deg2rad_zero, Real.sin_zero]

theorem cosd_90 : Real.cos (deg2rad 90) = 0 := by
  rw [deg2rad_90, Real.cos_pi_div_two]

theorem sind_90 : Real.sin (deg2rad 90) = 1 := by
  rw [deg2rad_90, Real.sin_pi_div_two]

theorem cosd_neg90 : Real.cos (deg2rad (-90)) = 0 := by
  rw [deg2rad_neg, Real.cos_neg, cosd_90]

theorem sind_neg90 : Real.sin (deg2rad (-90)) = -1 := by
  rw [deg2rad_neg, Real.sin_neg, sind_90]

theorem cosd_neg180 : Real.cos (deg2rad (-180)) = -1 := by
  rw [deg2rad_neg, Real.cos_neg, deg2rad_180, Real.cos_pi]

theorem sind_neg180 : Real.sin (deg2rad (-180)) = 0 := by
  rw [deg2rad_neg, Real.sin_neg, deg2rad_180, Real.sin_pi, neg_zero]

theorem rot1_mulVec (θ a b c : ℝ) :
    (rot1 θ).mulVec ![a, b, c] =
      ![a, Real.cos (deg2rad θ) * b - Real.sin (deg2rad θ) * c,
        Real.sin (deg2rad θ) * b + Real.cos (deg2rad θ) * c] := by
  funext i
  fin_cases i <;>
    simp [rot1, Matrix.mulVec, Matrix.dotProduct, Fin.sum_univ_three] <;> ring

theorem rot2_mulVec (θ a b c : ℝ) :
    (rot2 θ).mulVec ![a, b, c] =
      ![Real.cos (deg2rad θ) * a + Real.sin (deg2rad θ) * c, b,
        -Real.sin (deg2rad θ) * a + Real.cos (deg2rad θ) * c] := by
  funext i
  fin_cases i <;>
    simp [rot2, Matrix.mulVec, Matrix.dotProduct, Fin.sum_univ_three] <;> ring

theorem rot3_mulVec (θ a b c : ℝ) :
    (rot3 θ).mulVec ![a, b, c] =
      ![Real.cos (deg2rad θ) * a - Real.sin (deg2rad θ) * b,
        Real.sin (deg2rad θ) * a + Real.cos (deg2rad θ) * b, c] := by
  funext i
  fin_cases i <;>
    simp [rot3, Matrix.mulVec, Matrix.dotProduct, Fin.sum_univ_three] <;> ring

theorem rad2deg_zero : rad2deg 0 = 0 := by
  unfold rad2deg; ring

theorem rad2deg_pi_div_two : rad2deg (Real.pi / 2) = 90 := by
  rw [← deg2rad_90, rad2deg_deg2rad]

theorem rad2deg_neg (x : ℝ) : rad2deg (-x) = -rad2deg x := by
  unfold rad2deg; ring

theorem unitVec_zero_zero : unitVec 0 0 = ![1, 0, 0] := by
  funext i
  fin_cases i <;> simp [unitVec, cosd_zero, sind_zero]

theorem unitVec_pole (ra : ℝ) : unitVec ra 90 = ![0, 0, 1] := by
  funext i
  fin_cases i <;> simp [unitVec, cosd_90, sind_90]

theorem unitVec_neg90_zero : unitVec (-90) 0 = ![0, -1, 0] := by
  funext i
  fin_cases i <;> simp [unitVec, cosd_neg90, sind_neg90, cosd_zero, sind_zero]

theorem rot3_unitVec (θ φ δ : ℝ) :
    (rot3 θ).mulVec (unitVec φ δ) = unitVec (θ + φ) δ := by
  funext i
  fin_cases i <;>
    simp [rot3, unitVec, Matrix.mulVec, Matrix.dotProduct, Fin.sum_univ_three,
      deg2rad_add, Real.cos_add, Real.sin_add] <;> ring

theorem rot2_unitVec0 (θ δ : ℝ) :
    (rot2 θ).mulVec (unitVec 0 δ) = unitVec 0 (δ - θ) := by
  funext i
  fin_cases i <;>
    simp [rot2, unitVec, Matrix.mulVec, Matrix.dotProduct, Fin.sum_univ_three,
      deg2rad_sub, Real.cos_sub, Real.sin_sub, cosd_zero, sind_zero] <;> ring

theorem rot1_unit00 (θ : ℝ) : (rot1 θ).mulVec (unitVec 0 0) = unitVec 0 0 := by
  rw [unitVec_zero_zero, rot1_mulVec]
  funext i
  fin_cases i <;> simp

theorem attitude_anchor (v2 v3 ra dec pa : ℝ) :
    (attitudeM v2 v3 ra dec pa).mulVec (unitVec (v2 / 3600) (v3 / 3600)) =
      unitVec ra dec := by
  rw [attitudeM, ← Matrix.mulVec_mulVec, ← Matrix.mulVec_mulVec, ← Matrix.mulVec_mulVec,
    ← Matrix.mulVec_mulVec, rot3_unitVec]
  rw [show -(v2 / 3600) + v2 / 3600 = 0 by ring, rot2_unitVec0]
  rw [show v3 / 3600 - v3 / 3600 = 0 by ring, rot1_unit00, rot2_unitVec0]
  rw [show (0 : ℝ) - -dec = dec by ring, rot3_unitVec, add_zero]

theorem atan2_one_zero : atan2 (1 : ℝ) 0 = Real.pi / 2 := by
  unfold atan2
  have h : ((0 : ℝ) : ℂ) + ((1 : ℝ) : ℂ) * Complex.I = Complex.I := by push_cast; ring
  rw [h, Complex.arg_I]

theorem atan2_zero_zero : atan2 (0 : ℝ) 0 = 0 := by
  unfold atan2
  have h : ((0 : ℝ) : ℂ) + ((0 : ℝ) : ℂ) * Complex.I = 0 := by push_cast; ring
  rw [h, Complex.arg_zero]

theorem radecOf_e2 : radecOf ![0, 1, 0] = (90, 0) := by
  unfold radecOf
  simp only [Matrix.cons_val_zero, Matrix.cons_val_one, Matrix.head_cons,
    Matrix.cons_val_two, Matrix.tail_cons, atan2_one_zero, rad2deg_pi_div_two,
    Real.arcsin_zero, rad2deg_zero]
  rw [if_neg (by norm_num : ¬(90 : ℝ) < 0)]

theorem radecOf_e3 : radecOf ![0, 0, 1] = (0, 90) := by
  unfold radecOf
  simp only [Matrix.cons_val_zero, Matrix.cons_val_one, Matrix.head_cons,
    Matrix.cons_val_two, Matrix.tail_cons, atan2_zero_zero, rad2deg_zero,
    Real.arcsin_one, rad2deg_pi_div_two]
  rw [if_neg (by norm_num : ¬(0 : ℝ) < 0)]

theorem radecOf_neg_e3 : radecOf ![0, 0, -1] = (0, -90) := by
  unfold radecOf
  simp only [Matrix.cons_val_zero, Matrix.cons_val_one, Matrix.head_cons,
    Matrix.cons_val_two, Matrix.tail_cons, atan2_zero_zero, rad2deg_zero,
    Real.arcsin_neg_one, rad2deg_neg, rad2deg_pi_div_two]
  rw [if_neg (by norm_num : ¬(0 : ℝ) < 0)]

theorem radecOf_unitVec (ra dec : ℝ) (h0 : 0 ≤ ra) (h1 : ra < 360)
    (h2 : -90 < dec) (h3 : dec < 90) :
    radecOf (unitVec ra dec) = (ra, dec) := by
  have hpi : (0 : ℝ) < Real.pi := Real.pi_pos
  have hdlo : -(Real.pi / 2) < deg2rad dec := by
    unfold deg2rad
    nlinarith [mul_pos (show (0 : ℝ) < dec + 90 by linarith) hpi]
  have hdhi : deg2rad dec < Real.pi / 2 := by
    unfold deg2rad
    nlinarith [mul_pos (show (0 : ℝ) < 90 - dec by linarith) hpi]
  have hcos : 0 < Real.cos (deg2rad dec) := Real.cos_pos_of_mem_Ioo ⟨hdlo, hdhi⟩
  have hdec : rad2deg (Real.arcsin (Real.sin (deg2rad dec))) = dec := by
    rw [Real.arcsin_sin hdlo.le hdhi.le, rad2deg_deg2rad]
  have hsplit : ((Real.cos (deg2rad ra) * Real.cos (deg2rad dec) : ℝ) : ℂ) +
      ((Real.sin (deg2rad ra) * Real.cos (deg2rad dec) : ℝ) : ℂ) * Complex.I =
      ((Real.cos (deg2rad dec) : ℝ) : ℂ) *
        (((Real.cos (deg2rad ra) : ℝ) : ℂ) +
          ((Real.sin (deg2rad ra) : ℝ) : ℂ) * Complex.I) := by
    push_cast
    ring
  have harg : atan2 (Real.sin (deg2rad ra) * Real.cos (deg2rad dec))
      (Real.cos (deg2rad ra) * Real.cos (deg2rad dec)) =
      Complex.arg (((Real.cos (deg2rad ra) : ℝ) : ℂ) +
        ((Real.sin (deg2rad ra) : ℝ) : ℂ) * Complex.I) := by
    unfold atan2
    rw [hsplit, Complex.arg_real_mul _ hcos]
  simp only [radecOf, unitVec, Matrix.cons_val_zero, Matrix.cons_val_one,
    Matrix.head_cons, Matrix.cons_val_two, Matrix.tail_cons]
  rw [harg, hdec]
  by_cases hra : ra ≤ 180
  · have hr : Complex.arg (((Real.cos (deg2rad ra) : ℝ) : ℂ) +
        ((Real.sin (deg2rad ra) : ℝ) : ℂ) * Complex.I) = deg2rad ra := by
      rw [Complex.ofReal_cos, Complex.ofReal_sin]
      refine Complex.arg_cos_add_sin_mul_I ⟨?_, ?_⟩
      · unfold deg2rad
        nlinarith [mul_nonneg h0 hpi.le]
      · unfold deg2rad
        nlinarith [mul_nonneg (show (0 : ℝ) ≤ 180 - ra by linarith) hpi.le]
    rw [hr, rad2deg_deg2rad, if_neg (not_lt.mpr h0)]
  · push_neg at hra
    have hr : Complex.arg (((Real.cos (deg2rad ra) : ℝ) : ℂ) +
        ((Real.sin (deg2rad ra) : ℝ) : ℂ) * Complex.I) =
        deg2rad ra - 2 * Real.pi := by
      rw [← Real.cos_sub_two_pi (deg2rad ra), ← Real.sin_sub_two_pi (deg2rad ra),
        Complex.ofReal_cos, Complex.ofReal_sin]
      refine Complex.arg_cos_add_sin_mul_I ⟨?_, ?_⟩
      · unfold deg2rad
        nlinarith [mul_pos (show (0 : ℝ) < ra - 180 by linarith) hpi]
      · unfold deg2rad
        nlinarith [mul_pos (show (0 : ℝ) < 540 - ra by linarith) hpi]
    have hval : rad2deg (deg2rad ra - 2 * Real.pi) = ra - 360 := by
      unfold rad2deg deg2rad
      field_simp
      ring
    rw [hr, hval, if_pos (show ra - 360 < 0 by linarith)]
    rw [show ra - 360 + 360 = ra by ring]

theorem pointing_anchor (v2 v3 ra dec pa : ℝ) (h0 : 0 ≤ ra) (h1 : ra < 360)
    (h2 : -90 < dec) (h3 : dec < 90) :
    pointingM (attitudeM v2 v3 ra dec pa) v2 v3 = (ra, dec) := by
  unfold pointingM
  rw [attitude_anchor, radecOf_unitVec ra dec h0 h1 h2 h3]

theorem idlToTel_zero (c : SiafConsts) : idlToTelM c 0 0 = (c.v2Ref, c.v3Ref) := by
  unfold idlToTelM
  simp

/-- Claim C6 (amended): for every state whose aperture attitude matrix is
anchored at its current position with the aperture's reference constants
(as holds for every reachable state) and whose position lies in the
principal range `0 ≤ ra < 360`, `-90 < dec < 90`, a dither by `(0, 0)` is
an identity on `CurrentPosition`, exactly, in the real-number model of
the collaborator.  At the poles `dec = ±90` (and for `ra` outside
`[0, 360)`, which unvalidated construction permits) the recovered right
ascension is renormalized and the identity fails. -/
theorem claimC6_theorem (c : SiafConsts) (pa : Matrix (Fin 3) (Fin 3) ℝ → ℝ → ℝ → ℝ)
    (s : PointWFI ℝ) (hv2 : s.v2_ref = c.v2Ref) (hv3 : s.v3_ref = c.v3Ref)
    (hA : Anchored (pysiafFrame c pa) s)
    (h0 : 0 ≤ s.ra) (h1 : s.ra < 360) (h2 : -90 < s.dec) (h3 : s.dec < 90) :
    currentPosition (dither (pysiafFrame c pa) s 0 0) = currentPosition s := by
  have hstep : currentPosition (dither (pysiafFrame c pa) s 0 0) =
      ditherSky (pysiafFrame c pa) s 0 0 := rfl
  have hidl : (pysiafFrame c pa).idlToTel 0 0 = (c.v2Ref, c.v3Ref) := idlToTel_zero c
  rw [Anchored] at hA
  rw [hstep, ditherSky, hidl, hA, hv2, hv3]
  show pointingM (attitudeM c.v2Ref c.v3Ref s.ra s.dec s.roll_angle) c.v2Ref c.v3Ref =
    currentPosition s
  rw [pointing_anchor c.v2Ref c.v3Ref s.ra s.dec s.roll_angle h0 h1 h2 h3]
  rfl

/-- Witness for claim C6 at the concrete state constructed from
`(80, 30, 0)` with the boresight-centred constants. -/
theorem claimC6_witness :
    (construct frame0 80 30 0).v2_ref = zeroConsts.v2Ref ∧
      (construct frame0 80 30 0).v3_ref = zeroConsts.v3Ref ∧
      Anchored frame0 (construct frame0 80 30 0) ∧
      0 ≤ (construct frame0 80 30 0).ra ∧
      (construct frame0 80 30 0).ra < 360 ∧
      -90 < (construct frame0 80 30 0).dec ∧
      (construct frame0 80 30 0).dec < 90 ∧
      currentPosition (dither frame0 (construct frame0 80 30 0) 0 0) =
        currentPosition (construct frame0 80 30 0) :=
  ⟨rfl, rfl, anchored_construct frame0 80 30 0,
    show (0 : ℝ) ≤ 80 by norm_num, show (80 : ℝ) < 360 by norm_num,
    show (-90 : ℝ) < 30 by norm_num, show (30 : ℝ) < 90 by norm_num,
    claimC6_theorem zeroConsts posangleZero (construct frame0 80 30 0) rfl rfl
      (anchored_construct frame0 80 30 0)
      (show (0 : ℝ) ≤ 80 by norm_num) (show (80 : ℝ) < 360 by norm_num)
      (show (-90 : ℝ) < 30 by norm_num) (show (30 : ℝ) < 90 by norm_num)⟩

/-- Claim C6 (counterexample): at the valid pole position `dec = 90`
(constructed from `(80, 90, 0)`), a dither by `(0, 0)` changes
`CurrentPosition`: the recovered right ascension collapses to `0`, which
differs from the stored `80` by far more than any floating-point
tolerance. -/
theorem claimC6_counterexample :
    currentPosition (dither frame0 (construct frame0 80 90 0) 0 0) ≠
      currentPosition (construct frame0 80 90 0) := by
  have hstep : currentPosition (dither frame0 (construct frame0 80 90 0) 0 0) =
      ditherSky frame0 (construct frame0 80 90 0) 0 0 := rfl
  have hidl : frame0.idlToTel 0 0 = ((0 : ℝ), (0 : ℝ)) := idlToTel_zero zeroConsts
  have hpos : currentPosition (dither frame0 (construct frame0 80 90 0) 0 0) =
      ((0 : ℝ), (90 : ℝ)) := by
    rw [hstep, ditherSky, hidl]
    show pointingM (attitudeM 0 0 80 90 0) 0 0 = (0, 90)
    unfold pointingM
    rw [attitude_anchor 0 0 80 90 0, unitVec_pole, radecOf_e3]
  have hcur : currentPosition (construct frame0 80 90 0) = ((80 : ℝ), (90 : ℝ)) := rfl
  rw [hpos, hcur]
  intro h
  have h0 := congrArg Prod.fst h
  norm_num at h0

theorem idlToTel_zeroConsts (x y : ℝ) : idlToTelM zeroConsts x y = (x, y) := by
  unfold idlToTelM zeroConsts
  simp [cosd_zero, sind_zero]

theorem attA_init_negE2 : (attitudeM 0 0 0 0 0).mulVec ![0, -1, 0] = ![0, 1, 0] := by
  funext i
  rw [attitudeM, ← Matrix.mulVec_mulVec, ← Matrix.mulVec_mulVec, ← Matrix.mulVec_mulVec,
    ← Matrix.mulVec_mulVec]
  fin_cases i <;>
    norm_num [rot1_mulVec, rot2_mulVec, rot3_mulVec, cosd_zero, sind_zero,
      cosd_neg180, sind_neg180, cosd_90, sind_90, cosd_neg90, sind_neg90,
      Matrix.cons_val_zero, Matrix.cons_val_one, Matrix.head_cons,
      Matrix.cons_val_two, Matrix.tail_cons]

theorem attA_init_e3 : (attitudeM 0 0 0 0 0).mulVec ![0, 0, 1] = ![0, 0, -1] := by
  funext i
  rw [attitudeM, ← Matrix.mulVec_mulVec, ← Matrix.mulVec_mulVec, ← Matrix.mulVec_mulVec,
    ← Matrix.mulVec_mulVec]
  fin_cases i <;>
    norm_num [rot1_mulVec, rot2_mulVec, rot3_mulVec, cosd_zero, sind_zero,
      cosd_neg180, sind_neg180, cosd_90, sind_90, cosd_neg90, sind_neg90,
      Matrix.cons_val_zero, Matrix.cons_val_one, Matrix.head_cons,
      Matrix.cons_val_two, Matrix.tail_cons]

theorem attA_ra90_e3 : (attitudeM 0 0 90 0 0).mulVec ![0, 0, 1] = ![0, 0, -1] := by
  funext i
  rw [attitudeM, ← Matrix.mulVec_mulVec, ← Matrix.mulVec_mulVec, ← Matrix.mulVec_mulVec,
    ← Matrix.mulVec_mulVec]
  fin_cases i <;>
    norm_num [rot1_mulVec, rot2_mulVec, rot3_mulVec, cosd_zero, sind_zero,
      cosd_neg180, sind_neg180, cosd_90, sind_90, cosd_neg90, sind_neg90,
      Matrix.cons_val_zero, Matrix.cons_val_one, Matrix.head_cons,
      Matrix.cons_val_two, Matrix.tail_cons]

theorem attA_decneg90_negE2 : (attitudeM 0 0 0 (-90) 0).mulVec ![0, -1, 0] = ![0, 1, 0] := by
  funext i
  rw [attitudeM, ← Matrix.mulVec_mulVec, ← Matrix.mulVec_mulVec, ← Matrix.mulVec_mulVec,
    ← Matrix.mulVec_mulVec]
  fin_cases i <;>
    norm_num [rot1_mulVec, rot2_mulVec, rot3_mulVec, cosd_zero, sind_zero,
      cosd_neg180, sind_neg180, cosd_90, sind_90, cosd_neg90, sind_neg90,
      Matrix.cons_val_zero, Matrix.cons_val_one, Matrix.head_cons,
      Matrix.cons_val_two, Matrix.tail_cons]

theorem attA_sep_e1 : (attitudeM 324000 0 0 90 0).mulVec ![1, 0, 0] = ![0, 1, 0] := by
  funext i
  rw [attitudeM, ← Matrix.mulVec_mulVec, ← Matrix.mulVec_mulVec, ← Matrix.mulVec_mulVec,
    ← Matrix.mulVec_mulVec]
  fin_cases i <;>
    norm_num [rot1_mulVec, rot2_mulVec, rot3_mulVec, cosd_zero, sind_zero,
      cosd_neg180, sind_neg180, cosd_90, sind_90, cosd_neg90, sind_neg90,
      Matrix.cons_val_zero, Matrix.cons_val_one, Matrix.head_cons,
      Matrix.cons_val_two, Matrix.tail_cons]

theorem attA_ra90_e2 : (attitudeM 0 0 90 0 0).mulVec ![0, 1, 0] = ![1, 0, 0] := by
  funext i
  rw [attitudeM, ← Matrix.mulVec_mulVec, ← Matrix.mulVec_mulVec, ← Matrix.mulVec_mulVec,
    ← Matrix.mulVec_mulVec]
  fin_cases i <;>
    norm_num [rot1_mulVec, rot2_mulVec, rot3_mulVec, cosd_zero, sind_zero,
      cosd_neg180, sind_neg180, cosd_90, sind_90, cosd_neg90, sind_neg90,
      Matrix.cons_val_zero, Matrix.cons_val_one, Matrix.head_cons,
      Matrix.cons_val_two, Matrix.tail_cons]

theorem attA_sep_e2 : (attitudeM 324000 0 0 90 0).mulVec ![0, 1, 0] = ![0, 0, 1] := by
  funext i
  rw [attitudeM, ← Matrix.mulVec_mulVec, ← Matrix.mulVec_mulVec, ← Matrix.mulVec_mulVec,
    ← Matrix.mulVec_mulVec]
  fin_cases i <;>
    norm_num [rot1_mulVec, rot2_mulVec, rot3_mulVec, cosd_zero, sind_zero,
      cosd_neg180, sind_neg180, cosd_90, sind_90, cosd_neg90, sind_neg90,
      Matrix.cons_val_zero, Matrix.cons_val_one, Matrix.head_cons,
      Matrix.cons_val_two, Matrix.tail_cons]

/-- Claim C7: `Dither` is not commutative — there is a starting pointing
and two offset pairs such that applying the dithers in the two orders
yields different `CurrentPosition` results (here, starting from
`(0, 0, 0)` with 90-degree offsets, the two orders end at `(0, -90)` and
`(90, 0)` respectively). -/
theorem claimC7_theorem :
    ∃ ra dec roll x1 y1 x2 y2 : ℝ,
      currentPosition
          (dither frame0 (dither frame0 (construct frame0 ra dec roll) x1 y1) x2 y2) ≠
        currentPosition
          (dither frame0 (dither frame0 (construct frame0 ra dec roll) x2 y2) x1 y1) := by
  refine ⟨0, 0, 0, -324000, 0, 0, 324000, ?_⟩
  have hidlA : frame0.idlToTel (-324000) 0 = ((-324000 : ℝ), (0 : ℝ)) :=
    idlToTel_zeroConsts (-324000) 0
  have hidlB : frame0.idlToTel 0 324000 = ((0 : ℝ), (324000 : ℝ)) :=
    idlToTel_zeroConsts 0 324000
  have hA1 : ditherSky frame0 (construct frame0 0 0 0) (-324000) 0 = ((90 : ℝ), (0 : ℝ)) := by
    rw [ditherSky, hidlA]
    show pointingM (attitudeM 0 0 0 0 0) (-324000) 0 = (90, 0)
    unfold pointingM
    rw [show (-324000 : ℝ) / 3600 = -90 by norm_num, show (0 : ℝ) / 3600 = 0 by norm_num,
      unitVec_neg90_zero, attA_init_negE2, radecOf_e2]
  have haperA : (dither frame0 (construct frame0 0 0 0) (-324000) 0).aperture_attitude =
      attitudeM 0 0 90 0 0 := by
    rw [dither_aperture_eq, hA1]
    rfl
  have hA2 : ditherSky frame0 (dither frame0 (construct frame0 0 0 0) (-324000) 0)
      0 324000 = ((0 : ℝ), (-90 : ℝ)) := by
    rw [ditherSky, hidlB, haperA]
    show pointingM (attitudeM 0 0 90 0 0) 0 324000 = (0, -90)
    unfold pointingM
    rw [show (0 : ℝ) / 3600 = 0 by norm_num, show (324000 : ℝ) / 3600 = 90 by norm_num,
      unitVec_pole, attA_ra90_e3, radecOf_neg_e3]
  have hB1 : ditherSky frame0 (construct frame0 0 0 0) 0 324000 = ((0 : ℝ), (-90 : ℝ)) := by
    rw [ditherSky, hidlB]
    show pointingM (attitudeM 0 0 0 0 0) 0 324000 = (0, -90)
    unfold pointingM
    rw [show (0 : ℝ) / 3600 = 0 by norm_num, show (324000 : ℝ) / 3600 = 90 by norm_num,
      unitVec_pole, attA_init_e3, radecOf_neg_e3]
  have haperB : (dither frame0 (construct frame0 0 0 0) 0 324000).aperture_attitude =
      attitudeM 0 0 0 (-90) 0 := by
    rw [dither_aperture_eq, hB1]
    rfl
  have hB2 : ditherSky frame0 (dither frame0 (construct frame0 0 0 0) 0 324000)
      (-324000) 0 = ((90 : ℝ), (0 : ℝ)) := by
    rw [ditherSky, hidlA, haperB]
    show pointingM (attitudeM 0 0 0 (-90) 0) (-324000) 0 = (90, 0)
    unfold pointingM
    rw [show (-324000 : ℝ) / 3600 = -90 by norm_num, show (0 : ℝ) / 3600 = 0 by norm_num,
      unitVec_neg90_zero, attA_decneg90_negE2, radecOf_e2]
  have hposA : currentPosition
      (dither frame0 (dither frame0 (construct frame0 0 0 0) (-324000) 0) 0 324000) =
      ((0 : ℝ), (-90 : ℝ)) := by
    have hstep : currentPosition
        (dither frame0 (dither frame0 (construct frame0 0 0 0) (-324000) 0) 0 324000) =
        ditherSky frame0 (dither frame0 (construct frame0 0 0 0) (-324000) 0) 0 324000 := rfl
    rw [hstep, hA2]
  have hposB : currentPosition
      (dither frame0 (dither frame0 (construct frame0 0 0 0) 0 324000) (-324000) 0) =
      ((90 : ℝ), (0 : ℝ)) := by
    have hstep : currentPosition
        (dither frame0 (dither frame0 (construct frame0 0 0 0) 0 324000) (-324000) 0) =
        ditherSky frame0 (dither frame0 (construct frame0 0 0 0) 0 324000) (-324000) 0 := rfl
    rw [hstep, hB2]
  rw [hposA, hposB]
  intro h
  have h0 := congrArg Prod.fst h
  norm_num at h0

/-- Claim C1 (counterexample): after `construct` with `(ra, dec, roll) =
(0, 90, 0)` and a reference point 90 degrees from the boresight, the
stored `attitude_matrix` field is the boresight-anchored matrix
`attitude(0, 0, 90, 0, 0)` and differs (at entry `(0, 1)`) from the
matrix the claim asserts, `attitude(v2_ref, v3_ref, ra, dec,
roll_angle)`. -/
theorem claimC1_counterexample :
    (construct frame90 0 90 0).attitude_matrix ≠
      frame90.attitude (construct frame90 0 90 0).v2_ref
        (construct frame90 0 90 0).v3_ref (construct frame90 0 90 0).ra
        (construct frame90 0 90 0).dec (construct frame90 0 90 0).roll_angle := by
  have hbs : frame90.pointing (attitudeM 324000 0 0 90 0) 0 0 = ((90 : ℝ), (0 : ℝ)) := by
    show pointingM (attitudeM 324000 0 0 90 0) 0 0 = (90, 0)
    unfold pointingM
    rw [show (0 : ℝ) / 3600 = 0 by norm_num, unitVec_zero_zero, attA_sep_e1, radecOf_e2]
  have hmat : (construct frame90 0 90 0).attitude_matrix = attitudeM 0 0 90 0 0 := by
    have h1 : (construct frame90 0 90 0).attitude_matrix =
        frame90.attitude 0 0 (frame90.pointing (attitudeM 324000 0 0 90 0) 0 0).1
          (frame90.pointing (attitudeM 324000 0 0 90 0) 0 0).2 0 := rfl
    rw [h1, hbs]
    rfl
  have hclaim : frame90.attitude (construct frame90 0 90 0).v2_ref
      (construct frame90 0 90 0).v3_ref (construct frame90 0 90 0).ra
      (construct frame90 0 90 0).dec (construct frame90 0 90 0).roll_angle =
      attitudeM 324000 0 0 90 0 := rfl
  rw [hmat, hclaim]
  intro h
  have hcol : (attitudeM 0 0 90 0 0).mulVec ![0, 1, 0] =
      (attitudeM 324000 0 0 90 0).mulVec ![0, 1, 0] := by rw [h]
  rw [attA_ra90_e2, attA_sep_e2] at hcol
  have h00 := congrFun hcol 0
  norm_num [Matrix.cons_val_zero] at h00
